import Mathlib

/-!
Shallow embedding of the weather-market safe-bet engine:
the safety scorer (`safetyScorer.ts`), the circuit breakers and trade
engine (`circuitBreakers.ts`, `tradeEngine.ts`), the orchestrator
(`botOrchestratorV2.ts`) and the order normalizer (`postOrder.ts`).
JavaScript numbers are modelled as rationals, `null`-able numbers as
`Option ℚ` with explicit JS truthiness, and the ambient clock hour as an
explicit parameter.
-/

namespace WeatherBot

/-- JS `Math.round`: round half toward positive infinity, `⌊x + 1/2⌋`. -/
def jsRound (q : ℚ) : ℤ := ⌊q + 1/2⌋

/-- `Math.round` as a rational-valued function. -/
def jsRoundQ (q : ℚ) : ℚ := (jsRound q : ℚ)

/-- `roundDown` from the order poster: `Math.floor(num * 10 ** decimals) / 10 ** decimals`. -/
def roundDown (num : ℚ) (decimals : ℕ) : ℚ := (⌊num * 10 ^ decimals⌋ : ℚ) / 10 ^ decimals

/-- JS truthiness of a nullable number: `null` and `0` are falsy. -/
def truthy : Option ℚ → Bool
  | none => false
  | some q => q != 0

/-- JS `a || b` on a nullable number: the default is used when `a` is falsy. -/
def jsOr (o : Option ℚ) (d : ℚ) : ℚ :=
  match o with
  | none => d
  | some q => if q = 0 then d else q

/-- The two outcomes of a binary market. -/
inductive Side
  | YES
  | NO
deriving DecidableEq, Repr

/-- Recommendation emitted by the safety scorer. -/
inductive Recommendation
  | BUY_YES
  | BUY_NO
  | SKIP
deriving DecidableEq, Repr

/-- Lifecycle of a position document. -/
inductive PosStatus
  | OPEN
  | RESOLVED
deriving DecidableEq, Repr

/-- The configured thresholds read from the environment (`config/env.ts`).
Documented defaults: `MIN_SAFETY_SCORE = 95`, `MIN_PROFIT_MARGIN_PERCENT = 0.5`. -/
structure ScoreEnv where
  MIN_SAFETY_SCORE : ℚ
  MIN_PROFIT_MARGIN_PERCENT : ℚ

/-- Time-of-day sub-score of `calculateTemperatureCertaintyScore`,
keyed on `new Date().getHours()`. -/
def timeScoreOf (hour : ℕ) : ℚ :=
  if 18 ≤ hour then 90
  else if 15 ≤ hour then 80
  else if 12 ≤ hour then 60
  else if 9 ≤ hour then 40
  else 20

/-- Distance sub-score of `calculateTemperatureCertaintyScore`,
keyed on `|dailyMax - thresholdTemp|`. -/
def distanceScoreOf (distanceFromThreshold : ℚ) : ℚ :=
  if distanceFromThreshold > 10 then 95
  else if distanceFromThreshold > 5 then 85
  else if distanceFromThreshold > 3 then 70
  else if distanceFromThreshold > 1 then 50
  else 20

/-- `calculateTemperatureCertaintyScore` (weight 40%) from `safetyScorer.ts`.
The source reads the clock itself; the hour is passed explicitly here.
`forecastHigh` is accepted but unused, as in the source. -/
def calculateTemperatureCertaintyScore (currentTemp dailyMax forecastHigh thresholdTemp : ℚ)
    (hour : ℕ) : ℚ :=
  if dailyMax > thresholdTemp ∧ currentTemp > thresholdTemp then 100
  else
    let distanceScore := distanceScoreOf |dailyMax - thresholdTemp|
    let timeScore := timeScoreOf hour
    jsRoundQ (distanceScore * (6/10) + timeScore * (4/10))

/-- `calculateMarketPriceSignalScore` (weight 30%) from `safetyScorer.ts`.
`dailyMax` and `thresholdTemp` are accepted but unused, as in the source. -/
def calculateMarketPriceSignalScore (yesPrice noPrice orderBookSpread orderBookVolume : Option ℚ)
    (dailyMax thresholdTemp : ℚ) : ℚ :=
  if ¬ (truthy yesPrice ∧ truthy noPrice) then 50
  else
    let yp := yesPrice.getD 0
    let s1 : ℚ := 50 +
      (if yp > 95/100 then 25
       else if yp < 5/100 then 25
       else if (yp > 8/10 ∧ yp < 95/100) ∨ (yp > 5/100 ∧ yp < 2/10) then 15
       else 0)
    let s2 : ℚ := s1 +
      (if truthy orderBookVolume ∧ orderBookVolume.getD 0 > 10000 then 10
       else if truthy orderBookVolume ∧ orderBookVolume.getD 0 > 1000 then 5
       else if ¬ truthy orderBookVolume ∨ orderBookVolume.getD 0 < 100 then -10
       else 0)
    let s3 : ℚ := s2 +
      (if truthy orderBookSpread ∧ orderBookSpread.getD 0 > 2/10 then -15 else 0)
    max 0 (min 100 s3)

/-- `calculateWeatherStabilityScore` (weight 20%) from `safetyScorer.ts`. -/
def calculateWeatherStabilityScore (currentTemp dailyMax forecastHigh thresholdTemp : ℚ) : ℚ :=
  let forecastDeviation := |forecastHigh - dailyMax|
  let s1 : ℚ := 60 +
    (if forecastDeviation < 1 then 30
     else if forecastDeviation < 3 then 15
     else if forecastDeviation < 5 then 5
     else if forecastDeviation > 10 then -20
     else 0)
  let s2 : ℚ := s1 + (if currentTemp > dailyMax * (9/10) then -10 else -5)
  max 0 (min 100 s2)

/-- `calculateExpectedProfit` from `safetyScorer.ts`: profit percentage on the
implied winning side after the fixed 0.5% fee, floored at zero;
`null` when either price is missing or zero. -/
def calculateExpectedProfit (yesPrice noPrice : Option ℚ) (dailyMax thresholdTemp : ℚ) :
    Option ℚ :=
  if ¬ (truthy yesPrice ∧ truthy noPrice) then none
  else if dailyMax > thresholdTemp then
    some (max 0 ((1 - yesPrice.getD 0) / yesPrice.getD 0 * 100 - 1/2))
  else
    some (max 0 ((1 - noPrice.getD 0) / noPrice.getD 0 * 100 - 1/2))

/-- Input record of `calculateSafetyScore`. -/
structure ScoringInput where
  currentTemp : ℚ
  dailyMax : ℚ
  forecastHigh : ℚ
  thresholdTemp : ℚ
  yesPrice : Option ℚ
  noPrice : Option ℚ
  orderBookSpread : Option ℚ
  orderBookVolume : Option ℚ

/-- Output record of `calculateSafetyScore`. -/
structure ScoringOutput where
  temperatureCertaintyScore : ℚ
  marketPriceSignalScore : ℚ
  weatherStabilityScore : ℚ
  totalScore : ℚ
  recommendation : Recommendation
  expectedProfitPercent : Option ℚ
deriving DecidableEq, Repr

/-- `calculateSafetyScore` from `safetyScorer.ts`: the three weighted components,
the rounded aggregate, the expected profit, and the recommendation.  Note the
source gates the recommendation on the literal `85`, not on
`ENV.MIN_SAFETY_SCORE`, and treats a missing or zero profit as a skip. -/
def calculateSafetyScore (env : ScoreEnv) (input : ScoringInput) (hour : ℕ) : ScoringOutput :=
  let t := calculateTemperatureCertaintyScore input.currentTemp input.dailyMax
    input.forecastHigh input.thresholdTemp hour
  let m := calculateMarketPriceSignalScore input.yesPrice input.noPrice
    input.orderBookSpread input.orderBookVolume input.dailyMax input.thresholdTemp
  let w := calculateWeatherStabilityScore input.currentTemp input.dailyMax
    input.forecastHigh input.thresholdTemp
  let total := jsRoundQ (t * (4/10) + m * (3/10) + w * (2/10))
  let profit := calculateExpectedProfit input.yesPrice input.noPrice
    input.dailyMax input.thresholdTemp
  let recom : Recommendation :=
    if total < 85 then .SKIP
    else if ¬ truthy profit ∨ profit.getD 0 < env.MIN_PROFIT_MARGIN_PERCENT then .SKIP
    else if input.dailyMax > input.thresholdTemp then .BUY_YES
    else .BUY_NO
  ⟨t, m, w, total, recom, profit⟩

/-! ## Circuit breakers (`circuitBreakers.ts`) -/

/-- The seven named gates initialized by `initializeCircuitBreakers`,
each with its boolean active state. -/
structure Breakers where
  loss_limit : Bool
  win_rate : Bool
  data_freshness : Bool
  api_health : Bool
  balance_check : Bool
  network_congestion : Bool
  manual_stop : Bool
deriving DecidableEq, Repr

/-- Circuit-breaker thresholds from `config/env.ts`. -/
structure CbEnv where
  MAX_LOSS_THRESHOLD : ℚ
  MIN_WIN_RATE_PERCENT : ℚ
  DATA_FRESHNESS_THRESHOLD : ℕ
  MIN_USDC_BALANCE : ℚ

/-- Persisted state the breaker evaluators read: resolved positions' PnL
(most recent first), the age in milliseconds of each tracked city's latest
weather reading, and the stored breaker states. -/
structure DbState where
  resolvedPnls : List (Option ℚ)
  readingAgesMs : List ℕ
  breakers : Breakers

/-- Total realized PnL: `positions.reduce((sum, p) => sum + (p.pnl || 0), 0)`. -/
def totalPnL (pnls : List (Option ℚ)) : ℚ :=
  pnls.foldl (fun s p => s + jsOr p 0) 0

/-- `checkLossLimit`: trip when total realized PnL is below the loss floor. -/
def checkLossLimit (env : CbEnv) (pnls : List (Option ℚ)) (brk : Breakers) : Bool × Breakers :=
  let triggered := totalPnL pnls < env.MAX_LOSS_THRESHOLD
  (triggered, { brk with loss_limit := triggered })

/-- `checkWinRate`: trip when the win rate over the last (up to) ten resolved
positions is below the floor; with fewer than five resolved positions it
returns early without touching the stored gate. -/
def checkWinRate (env : CbEnv) (pnls : List (Option ℚ)) (brk : Breakers) : Bool × Breakers :=
  let lastTrades := pnls.take 10
  if lastTrades.length < 5 then (false, brk)
  else
    let winning := (lastTrades.filter (fun p => jsOr p 0 > 0)).length
    let winRate := ((winning : ℚ) / (lastTrades.length : ℚ)) * 100
    let triggered := winRate < env.MIN_WIN_RATE_PERCENT
    (triggered, { brk with win_rate := triggered })

/-- `checkDataFreshness`: trip when any tracked city's latest reading is older
than the freshness ceiling; with no tracked city it returns early without
touching the stored gate. -/
def checkDataFreshness (env : CbEnv) (ages : List ℕ) (brk : Breakers) : Bool × Breakers :=
  if ages = [] then (false, brk)
  else
    let stale := ages.filter (fun a => ¬ a ≤ env.DATA_FRESHNESS_THRESHOLD)
    if stale ≠ [] then (true, { brk with data_freshness := true })
    else (false, { brk with data_freshness := false })

/-- `checkApiHealth`: the simplified source always reports healthy. -/
def checkApiHealth (brk : Breakers) : Bool × Breakers :=
  (false, { brk with api_health := false })

/-- `checkBalance`: trip when the USDC balance is below the floor. -/
def checkBalance (env : CbEnv) (usdcBalance : ℚ) (brk : Breakers) : Bool × Breakers :=
  let triggered := usdcBalance < env.MIN_USDC_BALANCE
  (triggered, { brk with balance_check := triggered })

/-- `runAllCircuitBreakerChecks`: run the five evaluators in order, threading
the stored gate states, and report whether any of the five triggered.  The
`manual_stop` and `network_congestion` gates are not consulted. -/
def runAllCircuitBreakerChecks (env : CbEnv) (db : DbState) (usdcBalance : ℚ) :
    Bool × Breakers :=
  let r1 := checkLossLimit env db.resolvedPnls db.breakers
  let r2 := checkWinRate env db.resolvedPnls r1.2
  let r3 := checkDataFreshness env db.readingAgesMs r2.2
  let r4 := checkApiHealth r3.2
  let r5 := checkBalance env usdcBalance r4.2
  (r1.1 || r2.1 || r3.1 || r4.1 || r5.1, r5.2)

/-- `setEmergencyStop` from `circuitBreakers.ts`: mark the manual gate active. -/
def setEmergencyStop (brk : Breakers) : Breakers := { brk with manual_stop := true }

/-- `resumeTrading` from `circuitBreakers.ts`: mark the manual gate inactive. -/
def resumeTrading (brk : Breakers) : Breakers := { brk with manual_stop := false }

/-! ## Trade engine (`tradeEngine.ts`) -/

/-- Input record of `executeTrade`. -/
structure ExecuteTradeInput where
  marketId : String
  side : Side
  currentPrice : ℚ
  confidence : ℚ
  expectedProfit : ℚ
  usdcBalance : ℚ
  shares : ℚ

/-- The size/price pair handed to `clobClient.createOrder`. -/
structure SubmittedOrder where
  size : ℚ
  price : ℚ
deriving DecidableEq, Repr

/-- A `Position` document as stored on a fill. -/
structure PositionDoc where
  market_id : String
  side : Side
  buy_price : ℚ
  shares : ℚ
  total_cost : ℚ
  status : PosStatus
deriving DecidableEq, Repr

/-- Observable outcome of one `executeTrade` call: the returned success flag,
the order posted to the venue (if any), and the `Position` created (if any). -/
structure TradeResult where
  success : Bool
  submittedOrder : Option SubmittedOrder
  createdPosition : Option PositionDoc
deriving DecidableEq, Repr

/-- `executeTrade` from `tradeEngine.ts`.  Pure rendering: the venue's
fill response and the paper-trading flag are parameters, and every thrown
error is the caught-and-recorded failure result of the source. -/
def executeTrade (cbEnv : CbEnv) (db : DbState) (paperMode : Bool) (tickSize : ℚ)
    (venueSuccess : Bool) (input : ExecuteTradeInput) : TradeResult :=
  if (runAllCircuitBreakerChecks cbEnv db input.usdcBalance).1 then ⟨false, none, none⟩
  else if input.shares ≤ 0 then ⟨false, none, none⟩
  else if input.currentPrice ≤ 0 ∨ 1 ≤ input.currentPrice then ⟨false, none, none⟩
  else
    let totalCost := input.shares * input.currentPrice
    if totalCost > input.usdcBalance * (9/10) then ⟨false, none, none⟩
    else
      let normalizedPrice := jsRoundQ (input.currentPrice / tickSize) * tickSize
      if paperMode then
        ⟨true, none, some ⟨input.marketId, input.side, normalizedPrice, input.shares,
          totalCost, .OPEN⟩⟩
      else if venueSuccess then
        ⟨true, some ⟨input.shares, normalizedPrice⟩,
          some ⟨input.marketId, input.side, normalizedPrice, input.shares, totalCost, .OPEN⟩⟩
      else
        ⟨false, some ⟨input.shares, normalizedPrice⟩, none⟩

/-- The share count `executeAllInTrade` computes: available balance split
equally across the concurrently safe bets, divided by the quoted price. -/
def allInShares (usdcBalance : ℚ) (numSafeBets : ℕ) (price : ℚ) : ℚ :=
  usdcBalance / (numSafeBets : ℚ) / price

/-! ## Order normalizer (`postOrder.ts`, copy-trading variant) -/

/-- `normalizeOrder` from the order poster: snap the price to the nearest tick,
clamp into `[tick, 1 - tick]`, truncate to 2 decimals; truncate the size to 5
decimals; truncate the cost to 2 decimals; back-solve the size from the rounded
cost.  Returns `(normalizedSize, normalizedPrice, finalMakerAmountRounded)`. -/
def normalizeOrder (size price tickSize : ℚ) : ℚ × ℚ × ℚ :=
  let snapped := jsRoundQ (price / tickSize) * tickSize
  let clamped := max tickSize (min (1 - tickSize) snapped)
  let normalizedPrice := roundDown clamped 2
  let normalizedSize0 := roundDown size 5
  let rawMakerAmount := normalizedSize0 * normalizedPrice
  let roundedMakerAmount := roundDown rawMakerAmount 2
  let normalizedSize :=
    if normalizedPrice > 0 then roundDown (roundedMakerAmount / normalizedPrice) 5
    else normalizedSize0
  let recalculatedSize := roundedMakerAmount / normalizedPrice
  let finalMakerAmountRounded := (jsRound (recalculatedSize * normalizedPrice * 100) : ℚ) / 100
  (normalizedSize, normalizedPrice, finalMakerAmountRounded)

/-! ## Orchestrator (`botOrchestratorV2.ts`) -/

/-- Latest weather reading for a city as consumed by `detectSafeBets`. -/
structure WeatherRec where
  current_temp : ℚ
  daily_max : ℚ
  forecast_high : Option ℚ

/-- An active market document joined with its stored quote prices. -/
structure MarketRec where
  market_id : String
  city : String
  question : String
  threshold_temp : ℚ
  yes_price : Option ℚ
  no_price : Option ℚ

/-- A position row as queried by the promotion pass. -/
structure PositionRec where
  market_id : String
  side : Side
  status : PosStatus
deriving DecidableEq, Repr

/-- A promoted safe bet (`SafeMarket` of `botOrchestratorV2.ts`). -/
structure SafeMarket where
  marketId : String
  tokenId : String
  city : String
  question : String
  thresholdTemp : ℚ
  side : Side
  safetyScore : ℚ
  expectedProfit : ℚ
  currentPrice : ℚ
deriving DecidableEq, Repr

/-- Render a side the way the orchestrator builds token identifiers. -/
def sideKey : Side → String
  | .YES => "YES"
  | .NO => "NO"

/-- The `Position.findOne({ market_id, side, status: OPEN })` query of the
promotion pass: is there an OPEN position on this market and side? -/
def hasOpenPosition (positions : List PositionRec) (marketId : String) (side : Side) : Bool :=
  positions.any fun p => decide (p.market_id = marketId ∧ p.side = side ∧ p.status = .OPEN)

/-- One iteration of the `detectSafeBets` loop body for a single market:
score it, apply the promotion gate, and check for an existing OPEN position
on the same market and side. -/
def detectSafeBetsCandidate (env : ScoreEnv) (hour : ℕ) (weather : String → Option WeatherRec)
    (positions : List PositionRec) (market : MarketRec) : Option (String × SafeMarket) :=
  match weather market.city with
  | none => none
  | some w =>
    if ¬ (truthy market.yes_price ∧ truthy market.no_price) then none
    else
      let yp := market.yes_price.getD 0
      let np := market.no_price.getD 0
      let score := calculateSafetyScore env
        ⟨w.current_temp, w.daily_max, jsOr w.forecast_high w.daily_max, market.threshold_temp,
          market.yes_price, market.no_price, some |yp - np|, none⟩ hour
      if score.totalScore ≥ env.MIN_SAFETY_SCORE ∧ score.recommendation ≠ .SKIP ∧
          truthy score.expectedProfitPercent ∧
          score.expectedProfitPercent.getD 0 ≥ env.MIN_PROFIT_MARGIN_PERCENT then
        let side := if score.recommendation = .BUY_YES then Side.YES else Side.NO
        let price := if side = Side.YES then jsOr market.yes_price (1/2)
          else jsOr market.no_price (1/2)
        if hasOpenPosition positions market.market_id side then
          none
        else
          some (market.market_id ++ "-" ++ sideKey side,
            ⟨market.market_id, market.market_id ++ "-" ++ sideKey side, market.city,
              market.question, market.threshold_temp, side, score.totalScore,
              score.expectedProfitPercent.getD 0, price⟩)
      else none

/-- `detectSafeBets`: compute the fresh safe-bet set from scratch for the
given markets; the caller replaces the old set wholesale with this result. -/
def detectSafeBets (env : ScoreEnv) (hour : ℕ) (weather : String → Option WeatherRec)
    (positions : List PositionRec) : List MarketRec → List (String × SafeMarket)
  | [] => []
  | m :: rest =>
    match detectSafeBetsCandidate env hour weather positions m with
    | none => detectSafeBets env hour weather positions rest
    | some b => b :: detectSafeBets env hour weather positions rest

/-- The promotion-loop exclusivity invariant, decidably: no bet in the set
shares market id and side with an OPEN position. -/
def noOpenConflict (bets : List (String × SafeMarket)) (positions : List PositionRec) : Bool :=
  bets.all fun b => positions.all fun p =>
    ! decide (p.status = .OPEN ∧ p.market_id = b.2.marketId ∧ p.side = b.2.side)

/-- In-memory orchestrator state: control flags, the live safe-bet set, the
keys of the live orderbook-fetcher tasks, and the persisted breaker states. -/
structure BotState where
  botRunning : Bool
  botPaused : Bool
  emergencyStop : Bool
  safeMarkets : List (String × SafeMarket)
  fetchers : List String
  breakers : Breakers
deriving DecidableEq, Repr

/-- `triggerEmergencyStop` from `botOrchestratorV2.ts`: set the emergency flag,
stop the bot, cancel every fetcher and clear the safe-bet set.  It never
touches the persisted breaker records. -/
def triggerEmergencyStop (s : BotState) : BotState :=
  { s with emergencyStop := true, botRunning := false, fetchers := [], safeMarkets := [] }

/-- `stopBot`: stop the bot, cancel every fetcher and clear the safe-bet set. -/
def stopBot (s : BotState) : BotState :=
  { s with botRunning := false, fetchers := [], safeMarkets := [] }

/-- `manageOrderbookFetchers`: reconcile the live fetcher set against the
current safe-bet set — stop fetchers whose bet is gone, start one per new bet. -/
def manageOrderbookFetchers (fetchers : List String) (bets : List (String × SafeMarket)) :
    List String :=
  let keys := bets.map Prod.fst
  (fetchers.filter fun k => keys.contains k) ++ (keys.filter fun k => ! fetchers.contains k)

/-- One tick of `runSafeMarketDetectionLoop`: skipped outright when the bot is
not running, paused, or emergency-stopped; otherwise the safe-bet set is
replaced wholesale and the fetchers reconciled. -/
def runSafeMarketDetectionLoop (env : ScoreEnv) (hour : ℕ)
    (weather : String → Option WeatherRec) (positions : List PositionRec)
    (markets : List MarketRec) (s : BotState) : BotState :=
  if ! s.botRunning || s.botPaused || s.emergencyStop then s
  else
    let bets := detectSafeBets env hour weather positions markets
    { s with safeMarkets := bets, fetchers := manageOrderbookFetchers s.fetchers bets }

/-! ## Concrete fixtures used by witnesses and counterexamples -/

/-- Environment with the promotion threshold configured to 80. -/
def scoreEnvC7 : ScoreEnv := ⟨80, 1/2⟩

/-- Environment with the documented default threshold 95. -/
def scoreEnvDefault : ScoreEnv := ⟨95, 1/2⟩

/-- A scoring input whose outcome is already locked in: daily max 50 over a
threshold of 10, confident market at 0.96, deep book, tight spread. -/
def scoringInputHot : ScoringInput :=
  ⟨11, 50, 50, 10, some (24/25), some (1/25), some (1/10), some 20000⟩

/-- Circuit-breaker environment with the documented defaults. -/
def cbEnvDefault : CbEnv := ⟨-100, 80, 900000, 10⟩

/-- All gates inactive. -/
def breakersAllClear : Breakers := ⟨false, false, false, false, false, false, false⟩

/-- Only the manual/emergency gate active. -/
def breakersManualOnly : Breakers := ⟨false, false, false, false, false, false, true⟩

/-- Fresh database: no resolved positions, no tracked readings, no active gate. -/
def dbClear : DbState := ⟨[], [], breakersAllClear⟩

/-- Database where the operator has marked the manual gate active but every
evaluator condition is clear. -/
def dbManual : DbState := ⟨[], [], breakersManualOnly⟩

/-- Database with five winning resolved positions and one fresh reading. -/
def dbFiveWins : DbState :=
  ⟨[some 1, some 1, some 1, some 1, some 1], [1000], breakersAllClear⟩

/-- A modest favorable trade: 10 shares at 0.50 against a balance of 100. -/
def tradeInputSmall : ExecuteTradeInput := ⟨"m1", .YES, 1/2, 83, 3, 100, 10⟩

/-- The same trade but with a balance below the 10 USDC floor. -/
def tradeInputPoor : ExecuteTradeInput := ⟨"m1", .YES, 1/2, 83, 3, 5, 10⟩

/-- A trade whose share count carries six decimals, more than the venue's
five-decimal size limit. -/
def tradeInputRaw : ExecuteTradeInput := ⟨"m1", .YES, 57/100, 83, 3, 100, 10123456/1000000⟩

/-- A sample promoted bet. -/
def sampleBet : SafeMarket := ⟨"m1", "m1-YES", "London", "q1", 20, .YES, 83, 3, 1/2⟩

/-- A second sample promoted bet. -/
def sampleBet2 : SafeMarket := ⟨"m2", "m2-NO", "New York", "q2", 30, .NO, 83, 3, 1/2⟩

/-- A third sample promoted bet. -/
def sampleBet3 : SafeMarket := ⟨"m3", "m3-YES", "London", "q3", 25, .YES, 83, 3, 1/2⟩

/-- A running orchestrator with three live safe bets, three live fetcher
tasks, and every breaker inactive. -/
def botStateLive : BotState :=
  ⟨true, false, false,
    [("m1-YES", sampleBet), ("m2-NO", sampleBet2), ("m3-YES", sampleBet3)],
    ["m1-YES", "m2-NO", "m3-YES"], breakersAllClear⟩

/-! ## Theorems -/

/-- `Math.round` is monotone. -/
theorem jsRoundQ_mono {x y : ℚ} (h : x ≤ y) : jsRoundQ x ≤ jsRoundQ y := by
  unfold jsRoundQ jsRound
  exact_mod_cast Int.floor_le_floor (by linarith)

/-- Truncation to `d` decimals never increases the value. -/
theorem roundDown_le (q : ℚ) (d : ℕ) : roundDown q d ≤ q := by
  unfold roundDown
  rw [div_le_iff₀ (by positivity)]
  exact Int.floor_le _

/-- Truncation to `d` decimals preserves nonnegativity. -/
theorem roundDown_nonneg (q : ℚ) (d : ℕ) (h : 0 ≤ q) : 0 ≤ roundDown q d := by
  unfold roundDown
  apply div_nonneg _ (by positivity)
  exact_mod_cast Int.floor_nonneg.mpr (by positivity)

/-- C2 (amended): `triggerEmergencyStop` cancels every orderbook-fetcher task,
empties the safe-bet set, raises the in-memory emergency flag, and leaves the
persisted breaker records untouched; every subsequent detection-loop tick on
the stopped state is skipped, so no new bet is promoted. -/
theorem triggerEmergencyStop_spec (s : BotState) (env : ScoreEnv) (hour : ℕ)
    (weather : String → Option WeatherRec) (positions : List PositionRec)
    (markets : List MarketRec) :
    (triggerEmergencyStop s).fetchers = [] ∧
    (triggerEmergencyStop s).safeMarkets = [] ∧
    (triggerEmergencyStop s).emergencyStop = true ∧
    (triggerEmergencyStop s).breakers = s.breakers ∧
    runSafeMarketDetectionLoop env hour weather positions markets (triggerEmergencyStop s) =
      triggerEmergencyStop s := by
  refine ⟨rfl, rfl, rfl, rfl, ?_⟩
  simp [runSafeMarketDetectionLoop, triggerEmergencyStop]

/-- C2 (counterexample): an emergency stop issued with three live polling
tasks cancels the tasks and clears the safe-bet set, but the `manual_stop`
Breaker does NOT become active — `triggerEmergencyStop` never writes the
breaker record. -/
theorem triggerEmergencyStop_manual_breaker_cex :
    botStateLive.fetchers.length = 3 ∧
    botStateLive.breakers.manual_stop = false ∧
    (triggerEmergencyStop botStateLive).fetchers = [] ∧
    (triggerEmergencyStop botStateLive).safeMarkets = [] ∧
    (triggerEmergencyStop botStateLive).breakers.manual_stop = false := by
  decide

/-- A query hit: a member OPEN position on the queried market and side makes
`hasOpenPosition` report `true`. -/
theorem hasOpenPosition_true (positions : List PositionRec) (marketId : String) (side : Side)
    (p : PositionRec) (hp : p ∈ positions) (h1 : p.market_id = marketId) (h2 : p.side = side)
    (h3 : p.status = .OPEN) : hasOpenPosition positions marketId side = true := by
  unfold hasOpenPosition
  rw [List.any_eq_true]
  exact ⟨p, hp, by simp [h1, h2, h3]⟩

/-- A promoted candidate never collides with an OPEN position on the same
market and side: the detection pass checks positions before adding it. -/
theorem detectSafeBetsCandidate_no_conflict (env : ScoreEnv) (hour : ℕ)
    (weather : String → Option WeatherRec) (positions : List PositionRec)
    (market : MarketRec) (b : String × SafeMarket)
    (h : detectSafeBetsCandidate env hour weather positions market = some b) :
    ∀ p ∈ positions, ¬ (p.status = .OPEN ∧ p.market_id = b.2.marketId ∧ p.side = b.2.side) := by
  intro p hp hcon
  obtain ⟨hst, hid, hside⟩ := hcon
  simp only [detectSafeBetsCandidate] at h
  cases hw : weather market.city with
  | none => rw [hw] at h; exact Option.noConfusion h
  | some w =>
    rw [hw] at h
    dsimp only at h
    split_ifs at h <;>
      first
      | exact Option.noConfusion h
      | (rw [Option.some.injEq] at h
         subst h
         dsimp only at hid hside
         first
         | exact absurd
             (hasOpenPosition_true positions market.market_id Side.YES p hp hid hside hst)
             (by assumption)
         | exact absurd
             (hasOpenPosition_true positions market.market_id Side.NO p hp hid hside hst)
             (by assumption))

/-- C3: after every promotion pass, no bet in the freshly computed (and
wholesale-substituted) safe-bet set shares market id and side with any OPEN
position from the positions snapshot the pass consulted. -/
theorem detectSafeBets_no_open_conflict (env : ScoreEnv) (hour : ℕ)
    (weather : String → Option WeatherRec) (positions : List PositionRec)
    (markets : List MarketRec) :
    noOpenConflict (detectSafeBets env hour weather positions markets) positions = true := by
  induction markets with
  | nil => rfl
  | cons m rest ih =>
    cases hc : detectSafeBetsCandidate env hour weather positions m with
    | none =>
      rw [detectSafeBets, hc]
      exact ih
    | some b =>
      rw [detectSafeBets, hc]
      have hb := detectSafeBetsCandidate_no_conflict env hour weather positions m b hc
      simp only [noOpenConflict, List.all_cons, Bool.and_eq_true] at ih ⊢
      refine ⟨List.all_eq_true.mpr fun p hp => ?_, ih⟩
      simp only [Bool.not_eq_true', decide_eq_false_iff_not]
      exact hb p hp

/-- C10: `executeTrade` returns an unsuccessful result, posts no order and
creates no `Position` whenever the requested cost exceeds 90% of the balance;
consequently an all-in execution computed for a single concurrently-live safe
bet (the whole balance allocated to it) always fails, for every input. -/
theorem executeTrade_oversize_guard (cbEnv : CbEnv) (db : DbState) (paperMode : Bool)
    (tickSize : ℚ) (venueSuccess : Bool) (input : ExecuteTradeInput) :
    (input.shares * input.currentPrice > input.usdcBalance * (9/10) →
      executeTrade cbEnv db paperMode tickSize venueSuccess input = ⟨false, none, none⟩) ∧
    (∀ (mId : String) (side : Side) (conf prof b p : ℚ),
      executeTrade cbEnv db paperMode tickSize venueSuccess
        ⟨mId, side, p, conf, prof, b, allInShares b 1 p⟩ = ⟨false, none, none⟩) := by
  constructor
  · intro hgt
    simp only [executeTrade]
    split_ifs <;> rfl
  · intro mId side conf prof b p
    simp only [executeTrade, allInShares]
    split_ifs with h1 h2 h3 h4 <;> try rfl
    all_goals exfalso
    all_goals push_neg at h2 h3 h4
    all_goals rw [Nat.cast_one, div_one] at h2 h4
    all_goals {
      have hp : 0 < p := h3.1
      have hb : 0 < b := by
        rcases div_pos_iff.mp h2 with ⟨hb, _⟩ | ⟨_, hneg⟩
        · exact hb
        · linarith
      rw [div_mul_cancel₀ b (ne_of_gt hp)] at h4
      linarith
    }

/-- C10 (witness): a concrete oversized attempt — 200 shares at 0.50 against a
balance of 100 (cost 100 > 90) — fails without an order or a position. -/
theorem executeTrade_oversize_guard_witness :
    executeTrade cbEnvDefault dbClear false (1/100) true
      ⟨"m1", .YES, 1/2, 83, 3, 100, 200⟩ = ⟨false, none, none⟩ :=
  (executeTrade_oversize_guard cbEnvDefault dbClear false (1/100) true
    ⟨"m1", .YES, 1/2, 83, 3, 100, 200⟩).1 (by norm_num)

/-- C1 (amended): `executeTrade` is vetoed — unsuccessful, no order, no
`Position` — whenever one of the five evaluator-backed checks (loss limit,
win rate, data freshness, API health, balance floor) triggers at the attempt;
the run never writes the `manual_stop` or `network_congestion` gates; and
each of the five evaluator-backed gates is left INACTIVE by its evaluator
once its condition is clear (the win-rate gate once at least five resolved
positions exist, the freshness gate once at least one city is tracked). -/
theorem executeTrade_breaker_gate_spec (cbEnv : CbEnv) (db : DbState) (paperMode : Bool)
    (tickSize : ℚ) (venueSuccess : Bool) (input : ExecuteTradeInput) :
    ((runAllCircuitBreakerChecks cbEnv db input.usdcBalance).1 = true →
      executeTrade cbEnv db paperMode tickSize venueSuccess input = ⟨false, none, none⟩) ∧
    ((runAllCircuitBreakerChecks cbEnv db input.usdcBalance).2.manual_stop =
        db.breakers.manual_stop ∧
     (runAllCircuitBreakerChecks cbEnv db input.usdcBalance).2.network_congestion =
        db.breakers.network_congestion) ∧
    (totalPnL db.resolvedPnls ≥ cbEnv.MAX_LOSS_THRESHOLD →
     ¬ (db.resolvedPnls.take 10).length < 5 →
     (((((db.resolvedPnls.take 10).filter fun p => jsOr p 0 > 0).length : ℚ) /
        (((db.resolvedPnls.take 10).length : ℕ) : ℚ)) * 100 ≥ cbEnv.MIN_WIN_RATE_PERCENT) →
     db.readingAgesMs ≠ [] →
     (∀ a ∈ db.readingAgesMs, a ≤ cbEnv.DATA_FRESHNESS_THRESHOLD) →
     input.usdcBalance ≥ cbEnv.MIN_USDC_BALANCE →
       (runAllCircuitBreakerChecks cbEnv db input.usdcBalance).2.loss_limit = false ∧
       (runAllCircuitBreakerChecks cbEnv db input.usdcBalance).2.win_rate = false ∧
       (runAllCircuitBreakerChecks cbEnv db input.usdcBalance).2.data_freshness = false ∧
       (runAllCircuitBreakerChecks cbEnv db input.usdcBalance).2.api_health = false ∧
       (runAllCircuitBreakerChecks cbEnv db input.usdcBalance).2.balance_check = false) := by
  refine ⟨fun h => ?_, ?_, ?_⟩
  · simp only [executeTrade, h]
    rfl
  · simp only [runAllCircuitBreakerChecks, checkLossLimit, checkWinRate, checkDataFreshness,
      checkApiHealth, checkBalance]
    split_ifs <;> exact ⟨rfl, rfl⟩
  · intro hLoss hLen hRate hAges hFresh hBal
    simp only [runAllCircuitBreakerChecks, checkLossLimit, checkWinRate, checkDataFreshness,
      checkApiHealth, checkBalance]
    have hfilter : db.readingAgesMs.filter (fun a => ¬ a ≤ cbEnv.DATA_FRESHNESS_THRESHOLD) = [] := by
      rw [List.filter_eq_nil_iff]
      intro a ha
      simpa using hFresh a ha
    split_ifs with h1 h2 <;>
      simp_all [decide_eq_false_iff_not, not_lt]

/-- C1 (counterexample): with the `manual_stop` Breaker ACTIVE but every
evaluator condition clear, `executeTrade` does not fail: it submits an order
and creates an OPEN `Position`, because `runAllCircuitBreakerChecks` never
consults the stored `manual_stop` state. -/
theorem executeTrade_manual_stop_ignored_cex :
    dbManual.breakers.manual_stop = true ∧
    (executeTrade cbEnvDefault dbManual false (1/100) true tradeInputSmall).success = true ∧
    (executeTrade cbEnvDefault dbManual false (1/100) true
      tradeInputSmall).submittedOrder.isSome = true ∧
    (executeTrade cbEnvDefault dbManual false (1/100) true
      tradeInputSmall).createdPosition.isSome = true := by
  with_unfolding_all decide

/-- C1 (witness): the veto fires on a concrete tripped evaluator (balance 5
below the 10 floor), and a concrete clear database (five wins, one fresh
reading) leaves all five evaluator-backed gates INACTIVE after the run. -/
theorem executeTrade_breaker_gate_spec_witness :
    executeTrade cbEnvDefault dbClear false (1/100) true tradeInputPoor =
      ⟨false, none, none⟩ ∧
    ((runAllCircuitBreakerChecks cbEnvDefault dbFiveWins
        tradeInputSmall.usdcBalance).2.loss_limit = false ∧
     (runAllCircuitBreakerChecks cbEnvDefault dbFiveWins
        tradeInputSmall.usdcBalance).2.win_rate = false ∧
     (runAllCircuitBreakerChecks cbEnvDefault dbFiveWins
        tradeInputSmall.usdcBalance).2.data_freshness = false ∧
     (runAllCircuitBreakerChecks cbEnvDefault dbFiveWins
        tradeInputSmall.usdcBalance).2.api_health = false ∧
     (runAllCircuitBreakerChecks cbEnvDefault dbFiveWins
        tradeInputSmall.usdcBalance).2.balance_check = false) :=
  ⟨(executeTrade_breaker_gate_spec cbEnvDefault dbClear false (1/100) true tradeInputPoor).1
      (by with_unfolding_all decide),
   (executeTrade_breaker_gate_spec cbEnvDefault dbFiveWins false (1/100) true
      tradeInputSmall).2.2 (by with_unfolding_all decide) (by with_unfolding_all decide)
      (by with_unfolding_all decide) (by with_unfolding_all decide)
      (by with_unfolding_all decide) (by with_unfolding_all decide)⟩

/-- C4 (amended): every order the trade engine hands to the venue carries the
raw input share count, unprocessed by the Normalizer, and a price that is
only snapped to the nearest tick (no clamp, no decimal truncation, no size
truncation, no cost back-solve). -/
theorem executeTrade_order_shape (cbEnv : CbEnv) (db : DbState) (tickSize : ℚ)
    (venueSuccess : Bool) (input : ExecuteTradeInput) (o : SubmittedOrder)
    (h : (executeTrade cbEnv db false tickSize venueSuccess input).submittedOrder = some o) :
    o.size = input.shares ∧ o.price = jsRoundQ (input.currentPrice / tickSize) * tickSize := by
  simp only [executeTrade] at h
  split_ifs at h <;> simp_all
  · subst h; exact ⟨rfl, rfl⟩
  · subst h; exact ⟨rfl, rfl⟩

/-- C4 (witness): a concrete submitted order — 10 shares at 0.50 on a 0.01
tick — carries exactly the raw share count and the tick-snapped price. -/
theorem executeTrade_order_shape_witness :
    (⟨10, 1/2⟩ : SubmittedOrder).size = tradeInputSmall.shares ∧
    (⟨10, 1/2⟩ : SubmittedOrder).price =
      jsRoundQ (tradeInputSmall.currentPrice / (1/100)) * (1/100) :=
  executeTrade_order_shape cbEnvDefault dbClear (1/100) true tradeInputSmall ⟨10, 1/2⟩
    (by with_unfolding_all decide)

set_option maxRecDepth 2000 in
/-- C4 (counterexample): with six-decimal shares the engine posts the raw
size 10.123456, which differs from the size the `normalizeOrder` pipeline
would produce for the same inputs (10.1228 after truncation and back-solve);
the posted order is not the Normalizer's output pair. -/
theorem executeTrade_normalizer_bypassed_cex :
    (executeTrade cbEnvDefault dbClear false (1/100) true tradeInputRaw).submittedOrder =
      some ⟨10123456/1000000, 57/100⟩ ∧
    (normalizeOrder (10123456/1000000) (57/100) (1/100)).1 ≠ 10123456/1000000 := by
  constructor
  · norm_num [executeTrade, runAllCircuitBreakerChecks, checkLossLimit, checkWinRate,
      checkDataFreshness, checkApiHealth, checkBalance, totalPnL, jsOr, jsRoundQ, jsRound,
      cbEnvDefault, dbClear, breakersAllClear, tradeInputRaw]
  · norm_num [normalizeOrder, roundDown, jsRoundQ, jsRound]

/-- The outcome-certainty component always lands in `[0, 100]`. -/
theorem tempScore_bounds (currentTemp dailyMax forecastHigh thresholdTemp : ℚ) (hour : ℕ) :
    0 ≤ calculateTemperatureCertaintyScore currentTemp dailyMax forecastHigh thresholdTemp hour ∧
    calculateTemperatureCertaintyScore currentTemp dailyMax forecastHigh thresholdTemp hour ≤
      100 := by
  unfold calculateTemperatureCertaintyScore distanceScoreOf timeScoreOf
  split_ifs <;> norm_num [jsRoundQ, jsRound]

/-- The market-price-signal component always lands in `[0, 100]`. -/
theorem marketScore_bounds (yesPrice noPrice orderBookSpread orderBookVolume : Option ℚ)
    (dailyMax thresholdTemp : ℚ) :
    0 ≤ calculateMarketPriceSignalScore yesPrice noPrice orderBookSpread orderBookVolume
        dailyMax thresholdTemp ∧
    calculateMarketPriceSignalScore yesPrice noPrice orderBookSpread orderBookVolume
        dailyMax thresholdTemp ≤ 100 := by
  unfold calculateMarketPriceSignalScore
  split_ifs <;> norm_num

/-- The weather-stability component always lands in `[0, 100]`. -/
theorem weatherScore_bounds (currentTemp dailyMax forecastHigh thresholdTemp : ℚ) :
    0 ≤ calculateWeatherStabilityScore currentTemp dailyMax forecastHigh thresholdTemp ∧
    calculateWeatherStabilityScore currentTemp dailyMax forecastHigh thresholdTemp ≤ 100 := by
  unfold calculateWeatherStabilityScore
  split_ifs <;> norm_num

/-- C9: the aggregate is the rounding of the 0.4/0.3/0.2-weighted component
sum, every component lies in `[0, 100]`, the aggregate never exceeds 90, and
therefore a promotion threshold configured above 90 (the documented default
`MIN_SAFETY_SCORE` is 95) can never be reached. -/
theorem calculateSafetyScore_total_bound (env : ScoreEnv) (input : ScoringInput) (hour : ℕ) :
    (0 ≤ (calculateSafetyScore env input hour).temperatureCertaintyScore ∧
      (calculateSafetyScore env input hour).temperatureCertaintyScore ≤ 100) ∧
    (0 ≤ (calculateSafetyScore env input hour).marketPriceSignalScore ∧
      (calculateSafetyScore env input hour).marketPriceSignalScore ≤ 100) ∧
    (0 ≤ (calculateSafetyScore env input hour).weatherStabilityScore ∧
      (calculateSafetyScore env input hour).weatherStabilityScore ≤ 100) ∧
    (calculateSafetyScore env input hour).totalScore =
      jsRoundQ ((calculateSafetyScore env input hour).temperatureCertaintyScore * (4/10) +
        (calculateSafetyScore env input hour).marketPriceSignalScore * (3/10) +
        (calculateSafetyScore env input hour).weatherStabilityScore * (2/10)) ∧
    (calculateSafetyScore env input hour).totalScore ≤ 90 ∧
    (90 < env.MIN_SAFETY_SCORE →
      (calculateSafetyScore env input hour).totalScore < env.MIN_SAFETY_SCORE) := by
  obtain ⟨ht0, ht1⟩ := tempScore_bounds input.currentTemp input.dailyMax
    input.forecastHigh input.thresholdTemp hour
  obtain ⟨hm0, hm1⟩ := marketScore_bounds input.yesPrice input.noPrice
    input.orderBookSpread input.orderBookVolume input.dailyMax input.thresholdTemp
  obtain ⟨hw0, hw1⟩ := weatherScore_bounds input.currentTemp input.dailyMax
    input.forecastHigh input.thresholdTemp
  have hbound : (calculateSafetyScore env input hour).totalScore ≤ 90 := by
    have hsum : calculateTemperatureCertaintyScore input.currentTemp input.dailyMax
        input.forecastHigh input.thresholdTemp hour * (4/10) +
        calculateMarketPriceSignalScore input.yesPrice input.noPrice
          input.orderBookSpread input.orderBookVolume input.dailyMax
          input.thresholdTemp * (3/10) +
        calculateWeatherStabilityScore input.currentTemp input.dailyMax
          input.forecastHigh input.thresholdTemp * (2/10) ≤ 90 := by linarith
    have h90 : jsRoundQ 90 = 90 := by norm_num [jsRoundQ, jsRound]
    calc (calculateSafetyScore env input hour).totalScore
        ≤ jsRoundQ 90 := jsRoundQ_mono hsum
      _ = 90 := h90
  exact ⟨⟨ht0, ht1⟩, ⟨hm0, hm1⟩, ⟨hw0, hw1⟩, rfl, hbound, fun h => lt_of_le_of_lt hbound h⟩

/-- C9 (witness): at the documented default threshold 95 and a concrete
locked-in input the aggregate stays strictly below the threshold. -/
theorem calculateSafetyScore_total_bound_witness :
    (calculateSafetyScore scoreEnvDefault scoringInputHot 3).totalScore <
      scoreEnvDefault.MIN_SAFETY_SCORE :=
  (calculateSafetyScore_total_bound scoreEnvDefault scoringInputHot 3).2.2.2.2.2
    (by norm_num [scoreEnvDefault])

/-- C7 (amended): the scorer recommends SKIP exactly when the aggregate is
below the hard-coded literal 85 (not the configured `MIN_SAFETY_SCORE`) or
the expected profit is missing, zero, or below the configured minimum margin;
otherwise it recommends BUY_YES exactly when the daily extreme exceeds the
threshold and BUY_NO otherwise. -/
theorem calculateSafetyScore_recommendation_spec (env : ScoreEnv) (input : ScoringInput)
    (hour : ℕ) :
    ((calculateSafetyScore env input hour).recommendation = .SKIP ↔
      ((calculateSafetyScore env input hour).totalScore < 85 ∨
       ¬ truthy (calculateSafetyScore env input hour).expectedProfitPercent ∨
       (calculateSafetyScore env input hour).expectedProfitPercent.getD 0 <
         env.MIN_PROFIT_MARGIN_PERCENT)) ∧
    ((calculateSafetyScore env input hour).recommendation = .BUY_YES ↔
      (¬ ((calculateSafetyScore env input hour).totalScore < 85 ∨
          ¬ truthy (calculateSafetyScore env input hour).expectedProfitPercent ∨
          (calculateSafetyScore env input hour).expectedProfitPercent.getD 0 <
            env.MIN_PROFIT_MARGIN_PERCENT) ∧
        input.dailyMax > input.thresholdTemp)) ∧
    ((calculateSafetyScore env input hour).recommendation = .BUY_NO ↔
      (¬ ((calculateSafetyScore env input hour).totalScore < 85 ∨
          ¬ truthy (calculateSafetyScore env input hour).expectedProfitPercent ∨
          (calculateSafetyScore env input hour).expectedProfitPercent.getD 0 <
            env.MIN_PROFIT_MARGIN_PERCENT) ∧
        ¬ input.dailyMax > input.thresholdTemp)) := by
  simp only [calculateSafetyScore]
  split_ifs with h1 h2 h3 <;> simp_all

/-- C7 (counterexample): with the promotion threshold configured to 80, a
concrete input scores 83 (≥ 80) with expected profit 11/3 (≥ the 0.5 margin),
yet the scorer still recommends SKIP — the gate compares against the literal
85, not the configured `MIN_SAFETY_SCORE`. -/
theorem calculateSafetyScore_threshold_cex :
    (calculateSafetyScore scoreEnvC7 scoringInputHot 3).recommendation = .SKIP ∧
    (calculateSafetyScore scoreEnvC7 scoringInputHot 3).totalScore = 83 ∧
    scoreEnvC7.MIN_SAFETY_SCORE = 80 ∧
    (calculateSafetyScore scoreEnvC7 scoringInputHot 3).expectedProfitPercent = some (11/3) ∧
    ¬ (calculateSafetyScore scoreEnvC7 scoringInputHot 3).totalScore <
      scoreEnvC7.MIN_SAFETY_SCORE ∧
    scoreEnvC7.MIN_PROFIT_MARGIN_PERCENT ≤ 11/3 := by
  with_unfolding_all decide

/-- C8 (amended): whenever the daily extreme is within one unit of the
threshold AND the already-locked-in early exit does not apply (it fires when
both the daily extreme and the current reading exceed the threshold, and then
returns 100), the certainty component uses the lowest distance bucket (20)
regardless of the hour. -/
theorem temperatureCertainty_near_threshold_spec (currentTemp dailyMax forecastHigh
    thresholdTemp : ℚ) (hour : ℕ) (hnear : |dailyMax - thresholdTemp| ≤ 1)
    (hnot : ¬ (dailyMax > thresholdTemp ∧ currentTemp > thresholdTemp)) :
    calculateTemperatureCertaintyScore currentTemp dailyMax forecastHigh thresholdTemp hour =
      jsRoundQ (20 * (6/10) + timeScoreOf hour * (4/10)) := by
  have hdist : distanceScoreOf |dailyMax - thresholdTemp| = 20 := by
    unfold distanceScoreOf
    split_ifs <;> linarith
  simp only [calculateTemperatureCertaintyScore, if_neg hnot, hdist]

/-- C8 (witness): a concrete near-threshold reading (extreme 80.5 against
threshold 80, current 79, hour 3) gets the lowest-bucket score. -/
theorem temperatureCertainty_near_threshold_spec_witness :
    calculateTemperatureCertaintyScore 79 (161/2) 80 80 3 =
      jsRoundQ (20 * (6/10) + timeScoreOf 3 * (4/10)) :=
  temperatureCertainty_near_threshold_spec 79 (161/2) 80 80 3 (by norm_num [abs_le])
    (by norm_num)

/-- C8 (counterexample): with the extreme half a unit over the threshold, the
component returns 100 when the current reading also exceeds the threshold and
20 when it does not — within the one-unit band the result is not forced to
the lowest bucket and does depend on the current reading. -/
theorem temperatureCertainty_near_threshold_cex :
    calculateTemperatureCertaintyScore 81 (161/2) 80 80 3 = 100 ∧
    calculateTemperatureCertaintyScore 79 (161/2) 80 80 3 = 20 ∧
    |(161/2 : ℚ) - 80| ≤ 1 := by
  with_unfolding_all decide

/-- Rounding an integer-valued rational is the identity. -/
theorem jsRound_intCast (m : ℤ) : jsRound (m : ℚ) = m := by
  unfold jsRound
  rw [add_comm, Int.floor_add_int]
  norm_num

/-- Scaling a 2-decimal truncation back by 100 and rounding recovers it. -/
theorem jsRound_roundDown_two (q : ℚ) :
    ((jsRound (roundDown q 2 * 100) : ℤ) : ℚ) / 100 = roundDown q 2 := by
  unfold roundDown
  have h1 : (⌊q * 10 ^ 2⌋ : ℚ) / 10 ^ 2 * 100 = (⌊q * 10 ^ 2⌋ : ℚ) := by
    rw [(by norm_num : ((10:ℚ) ^ 2) = 100), div_mul_cancel₀ _ (by norm_num : (100:ℚ) ≠ 0)]
  rw [h1, jsRound_intCast]
  norm_num

/-- C5 (amended): when the normalized price
is positive, the committed maker amount `finalMakerAmountRounded` is exactly
representable at the 2-decimal cost limit, and neither it nor the re-derived
cost (normalized size × normalized price) exceeds the truncated size times
the NORMALIZED price.  (Because the price snap rounds to nearest — it can
round up — the bound is against the snapped price, not the raw quote: the
committed cost can exceed the raw size × price notional, see the
counterexample.) -/
theorem normalizeOrder_cost_spec (size price tickSize : ℚ)
    (hp : 0 < (normalizeOrder size price tickSize).2.1) :
    (∃ n : ℤ, (normalizeOrder size price tickSize).2.2 = (n : ℚ) / 100) ∧
    (normalizeOrder size price tickSize).1 * (normalizeOrder size price tickSize).2.1 ≤
      (normalizeOrder size price tickSize).2.2 ∧
    (normalizeOrder size price tickSize).2.2 ≤
      roundDown size 5 * (normalizeOrder size price tickSize).2.1 ∧
    (normalizeOrder size price tickSize).2.2 ≤
      size * (normalizeOrder size price tickSize).2.1 := by
  simp only [normalizeOrder] at hp ⊢
  set np := roundDown
    (max tickSize (min (1 - tickSize) (jsRoundQ (price / tickSize) * tickSize))) 2 with hnp
  rw [if_pos hp]
  set rma := roundDown (roundDown size 5 * np) 2 with hrma
  have hdiv : rma / np * np = rma := div_mul_cancel₀ _ (ne_of_gt hp)
  have hfin : ((jsRound (rma / np * np * 100) : ℤ) : ℚ) / 100 = rma := by
    rw [hdiv, hrma]
    exact jsRound_roundDown_two _
  refine ⟨?_, ?_, ?_, ?_⟩
  · exact ⟨jsRound (rma / np * np * 100), rfl⟩
  · rw [hfin]
    calc roundDown (rma / np) 5 * np ≤ rma / np * np :=
          mul_le_mul_of_nonneg_right (roundDown_le _ _) hp.le
      _ = rma := hdiv
  · rw [hfin, hrma]
    exact roundDown_le _ _
  · rw [hfin]
    calc rma ≤ roundDown size 5 * np := by rw [hrma]; exact roundDown_le _ _
      _ ≤ size * np := mul_le_mul_of_nonneg_right (roundDown_le _ _) hp.le

/-- C5 (witness): a concrete well-behaved order (size 1 at 0.50 on a 0.01
tick) has its re-derived cost bounded by the committed maker amount. -/
theorem normalizeOrder_cost_spec_witness :
    (normalizeOrder 1 (1/2) (1/100)).1 * (normalizeOrder 1 (1/2) (1/100)).2.1 ≤
      (normalizeOrder 1 (1/2) (1/100)).2.2 :=
  (normalizeOrder_cost_spec 1 (1/2) (1/100)
    (by norm_num [normalizeOrder, roundDown, jsRoundQ, jsRound])).2.1

/-- C5 (counterexample): size 100 at price 0.016 on a 0.01 tick — the snap
rounds the price UP to 0.02, the output is (100, 0.02) with re-derived cost
2.00, which exceeds the originally authorized notional 100 × 0.016 = 1.60;
truncation is not the only rounding mode in the pipeline. -/
theorem normalizeOrder_cost_exceeds_cex :
    (normalizeOrder 100 (2/125) (1/100)).1 * (normalizeOrder 100 (2/125) (1/100)).2.1 = 2 ∧
    (100 : ℚ) * (2/125) = 8/5 ∧
    ¬ (normalizeOrder 100 (2/125) (1/100)).1 * (normalizeOrder 100 (2/125) (1/100)).2.1 ≤
      (100 : ℚ) * (2/125) := by
  refine ⟨?_, by norm_num, ?_⟩ <;>
    norm_num [normalizeOrder, roundDown, jsRoundQ, jsRound]

/-- C6 (amended): for a power-of-ten tick `1/10^k` (k ≥ 1), the normalized
price is an integer multiple of the tick and lies in the closed range
`[0, 1 − tick]`; it is snapped and clamped into `[tick, 1 − tick]` but the
subsequent truncation to 2 decimals can push it below the tick — down to 0 —
so strict interior membership in `(tick, 1 − tick)` fails (see the
counterexample). -/
theorem normalizeOrder_price_spec (size price : ℚ) (k : ℕ) (hk : 1 ≤ k) :
    (∃ n : ℤ, (normalizeOrder size price (1/10^k)).2.1 = (n : ℚ) * (1/10^k)) ∧
    0 ≤ (normalizeOrder size price (1/10^k)).2.1 ∧
    (normalizeOrder size price (1/10^k)).2.1 ≤ 1 - 1/10^k := by
  have htpos : (0:ℚ) < 1/10^k := by positivity
  have h10 : (10:ℚ) ≤ 10^k := by
    calc (10:ℚ) = 10^1 := (pow_one 10).symm
      _ ≤ 10^k := by exact pow_le_pow_right₀ (by norm_num) hk
  have ht2 : (1:ℚ)/10^k ≤ 1/2 := by
    rw [div_le_div_iff₀ (by positivity) (by norm_num)]
    nlinarith
  simp only [normalizeOrder]
  set t : ℚ := 1/10^k with hts
  set clamped : ℚ := max t (min (1 - t) (jsRoundQ (price / t) * t)) with hcl
  have hcll : t ≤ clamped := le_max_left _ _
  have hclu : clamped ≤ 1 - t := max_le (by rw [hts] at ht2 ⊢; linarith) (min_le_left _ _)
  have hmul : ∃ c : ℤ, clamped = (c : ℚ) * t := by
    rcases max_choice t (min (1 - t) (jsRoundQ (price / t) * t)) with h | h
    · exact ⟨1, by rw [hcl, h]; norm_num⟩
    · rcases min_choice (1 - t) (jsRoundQ (price / t) * t) with h2 | h2
      · refine ⟨10^k - 1, ?_⟩
        rw [hcl, h, h2, hts]
        push_cast
        field_simp
      · refine ⟨jsRound (price / t), ?_⟩
        rw [hcl, h, h2]
        unfold jsRoundQ
        rfl
  obtain ⟨c, hc⟩ := hmul
  refine ⟨?_, roundDown_nonneg _ _ (le_trans htpos.le hcll),
    le_trans (roundDown_le _ _) hclu⟩
  rcases Nat.lt_or_ge k 2 with hk2 | hk2
  · have hk1 : k = 1 := by omega
    subst hk1
    refine ⟨c, ?_⟩
    unfold roundDown
    rw [hc, hts]
    have harg : (c : ℚ) * (1/10^1) * 10 ^ 2 = ((10 * c : ℤ) : ℚ) := by
      push_cast
      ring
    rw [harg, Int.floor_intCast]
    push_cast
    ring
  · refine ⟨⌊clamped * 10 ^ 2⌋ * 10 ^ (k - 2), ?_⟩
    have hsplit : (10:ℚ) ^ k = 10 ^ (k - 2) * 10 ^ 2 := by
      rw [← pow_add]
      congr 1
      omega
    unfold roundDown
    rw [hts]
    push_cast
    rw [hsplit]
    field_simp
    ring

/-- C6 (witness): the spec scenario — price 0.015667 on tick 0.001 — lands on
a tick multiple within `[0, 1 − tick]`. -/
theorem normalizeOrder_price_spec_witness :
    (∃ n : ℤ, (normalizeOrder 10000 (15667/1000000) (1/10^3)).2.1 = (n : ℚ) * (1/10^3)) ∧
    0 ≤ (normalizeOrder 10000 (15667/1000000) (1/10^3)).2.1 ∧
    (normalizeOrder 10000 (15667/1000000) (1/10^3)).2.1 ≤ 1 - 1/10^3 :=
  normalizeOrder_price_spec 10000 (15667/1000000) 3 (by norm_num)

/-- C6 (counterexample): price 0.0015 on tick 0.001 snaps to 0.002, survives
the clamp, and is then truncated to 2 decimals — yielding a normalized price
of 0, which is NOT strictly greater than the tick: the output escapes the
open interval `(tick, 1 − tick)`. -/
theorem normalizeOrder_price_below_tick_cex :
    (normalizeOrder 1 (3/2000) (1/1000)).2.1 = 0 ∧
    ¬ ((1/1000 : ℚ) < (normalizeOrder 1 (3/2000) (1/1000)).2.1) := by
  constructor <;> norm_num [normalizeOrder, roundDown, jsRoundQ, jsRound]

end WeatherBot
